import Mathlib

/-!
# Verified Impact Ledger — shallow embedding

Embedding of the tamper-evident credential ledger of this repository
(`issueVerifiedImpactToken`, `recordLedgerEntry`, `verifyTokenAuthenticity`,
`verifyLedgerIntegrity`, `revokeToken`, `detectDuplicateClaims`,
`getUserTokenHistory`, and `detectAnomalousImpactClaims` from the impact
effectiveness model), together with proofs settling the specification claims.

Modelling conventions:
* JS 32-bit integer arithmetic is `Int` with an explicit reduction into
  `[-2^31, 2^31)` (`toInt32`); `hash & hash` in the source is exactly this
  reduction, and `hash << 5` reduces its result the same way.
* `JSON.stringify(obj, Object.keys(obj).sort())` passes a *replacer array*:
  per the ECMAScript standard, the sorted key list acts as a property
  whitelist applied at **every** nesting level, and fixes the property
  order of every serialized object to the list order.  The serializers
  below spell out the resulting strings for the fixed key sets of the
  source's token and block objects.
* Non-deterministic environment reads (`new Date()...`, `Date.now()`) are
  explicit parameters.
* `metadata: Record<string, any>` is modelled as an association list with
  string values (the shape every call site of this repository uses).
-/

/-- JS `ToInt32`: reduce an integer into `[-2^31, 2^31)`. -/
def toInt32 (x : Int) : Int :=
  let m := x % 4294967296
  if m < 2147483648 then m else m - 4294967296

/-- One step of the source's `hashString` loop:
`hash = (hash << 5) - hash + char; hash = hash & hash`. -/
def hashStep (h : Int) (c : Nat) : Int :=
  toInt32 (toInt32 (h * 32) - h + c)

/-- Lower-case hexadecimal rendering of a natural number, as JS
`Math.abs(hash).toString(16)` produces. -/
def natToHex (n : Nat) : String :=
  (Nat.toDigits 16 n).asString

/-- `hashString` (source `src/unnamed/part_001`, lines 317–325) in its
direct JS semantics: the 32-bit signed rolling hash over UTF-16 code
units, rendered as the hex string of its absolute value. -/
def hashStringSigned (s : String) : String :=
  natToHex (s.data.foldl (fun h c => hashStep h c.toNat) 0).natAbs

/-- The same loop step on the unsigned residue: `31 * u + c (mod 2^32)`.
`(h << 5) - h` is `31 * h`, and the signed reduction only changes the
representative, not the residue class mod `2^32`. -/
def natHashStep (u c : Nat) : Nat := (31 * u + c) % 4294967296

def hashFoldNat (u : Nat) (s : String) : Nat :=
  s.data.foldl (fun u c => natHashStep u c.toNat) u

/-- The signed 32-bit value represented by an unsigned residue. -/
def ofUnsigned (u : Nat) : Int :=
  if u < 2147483648 then (u : Int) else (u : Int) - 4294967296

/-- `hashString`, computed on the unsigned residue. `hashString_faithful`
below proves this equal to the direct signed JS semantics
`hashStringSigned`; the unsigned form is the one the remaining
definitions use. -/
def hashString (s : String) : String :=
  natToHex (ofUnsigned (hashFoldNat 0 s)).natAbs

/-- JSON escaping of a single character, per `QuoteJSONString`. -/
def jsonEscapeChar (c : Char) : String :=
  if c = '"' then "\\\""
  else if c = '\\' then "\\\\"
  else if c = '\x08' then "\\b"
  else if c = '\x0c' then "\\f"
  else if c = '\n' then "\\n"
  else if c = '\r' then "\\r"
  else if c = '\t' then "\\t"
  else if c.toNat < 32 then
    "\\u00" ++ (Nat.toDigits 16 (c.toNat / 16)).asString
            ++ (Nat.toDigits 16 (c.toNat % 16)).asString
  else String.singleton c

/-- JSON string literal (quoted, escaped). -/
def jstr (s : String) : String :=
  "\"" ++ String.join (s.data.map jsonEscapeChar) ++ "\""

/-- The literal brace characters of the JSON output. -/
def lb : String := "\x7b"

def rb : String := "\x7d"

/-- `status: 'active' | 'revoked' | 'expired'`. -/
inductive TokenStatus
  | active
  | revoked
  | expired
deriving DecidableEq, Repr

def statusStr : TokenStatus → String
  | .active => "active"
  | .revoked => "revoked"
  | .expired => "expired"

/-- `VerifiedImpactToken` (source lines 12–27). -/
structure VerifiedImpactToken where
  tokenId : String
  userId : String
  missionId : String
  missionTitle : String
  issuanceDate : String
  expirationDate : Option String
  organization : String
  impactSignalStrength : Int
  skillsMastered : List String
  verificationHash : String
  organizationSignature : String
  nonTransferable : Bool
  status : TokenStatus
  metadata : List (String × String)
deriving DecidableEq, Repr

/-- The sorted key whitelist `Object.keys(token).sort()`; the token object
carries `verificationHash` on the verification/revocation path but not on
the issuance path (the hash is computed over `tokenWithoutHash`). -/
def tokenKeys (withHash : Bool) : List String :=
  ["expirationDate", "impactSignalStrength", "issuanceDate", "metadata",
   "missionId", "missionTitle", "nonTransferable", "organization",
   "organizationSignature", "skillsMastered", "status", "tokenId",
   "userId"] ++ (if withHash then ["verificationHash"] else [])

/-- JS property access on an object modelled as an association list
(object keys are unique, so first match is the binding). -/
def lookupStr (m : List (String × String)) (k : String) : Option String :=
  match m with
  | [] => none
  | p :: es => if p.1 = k then some p.2 else lookupStr es k

/-- Serialization of a nested metadata object under a replacer whitelist:
only metadata entries whose key occurs in the whitelist are kept, in
whitelist order. -/
def serializeMeta (wl : List String) (m : List (String × String)) : String :=
  lb ++ String.intercalate ","
    (wl.filterMap (fun k => (lookupStr m k).map (fun v => jstr k ++ ":" ++ jstr v)))
  ++ rb

def jsonNullable : Option String → String
  | none => "null"
  | some s => jstr s

def jsonStrArray (l : List String) : String :=
  "[" ++ String.intercalate "," (l.map jstr) ++ "]"

/-- `JSON.stringify(token, Object.keys(token).sort())` for a token object:
properties in sorted key order, nested `metadata` filtered by the same
whitelist. `withHash` states whether the serialized object carries the
`verificationHash` property (true on the verification and revocation
paths, false for `tokenWithoutHash` at issuance). -/
def tokenJson (withHash : Bool) (t : VerifiedImpactToken) : String :=
  lb ++
  jstr "expirationDate" ++ ":" ++ jsonNullable t.expirationDate ++ "," ++
  jstr "impactSignalStrength" ++ ":" ++ toString t.impactSignalStrength ++ "," ++
  jstr "issuanceDate" ++ ":" ++ jstr t.issuanceDate ++ "," ++
  jstr "metadata" ++ ":" ++ serializeMeta (tokenKeys withHash) t.metadata ++ "," ++
  jstr "missionId" ++ ":" ++ jstr t.missionId ++ "," ++
  jstr "missionTitle" ++ ":" ++ jstr t.missionTitle ++ "," ++
  jstr "nonTransferable" ++ ":" ++ (if t.nonTransferable then "true" else "false") ++ "," ++
  jstr "organization" ++ ":" ++ jstr t.organization ++ "," ++
  jstr "organizationSignature" ++ ":" ++ jstr t.organizationSignature ++ "," ++
  jstr "skillsMastered" ++ ":" ++ jsonStrArray t.skillsMastered ++ "," ++
  jstr "status" ++ ":" ++ jstr (statusStr t.status) ++ "," ++
  jstr "tokenId" ++ ":" ++ jstr t.tokenId ++ "," ++
  jstr "userId" ++ ":" ++ jstr t.userId ++
  (if withHash then "," ++ jstr "verificationHash" ++ ":" ++ jstr t.verificationHash else "") ++
  rb

/-- `computeTokenHash` (source lines 301–304) applied to a full token
object, as `verifyTokenAuthenticity` and `revokeToken` do. -/
def computeTokenHash (t : VerifiedImpactToken) : String :=
  hashString (tokenJson true t)

/-- `computeTokenHash` applied to `tokenWithoutHash` at issuance: the
object has no `verificationHash` property yet, so the sorted key
whitelist omits it. -/
def computeTokenHashPreIssue (t : VerifiedImpactToken) : String :=
  hashString (tokenJson false t)

/-- `generateTokenId` (source lines 330–332); `Date.now()` is the
explicit `nowMs` parameter. -/
def generateTokenId (userId missionId : String) (nowMs : Nat) : String :=
  "TOKEN-" ++ userId.take 6 ++ "-" ++ missionId.take 6 ++ "-" ++ toString nowMs

structure MissionData where
  id : String
  title : String
  organization : String
  skillsMastered : List String
  impactSignalStrength : Int
deriving Repr

/-- `issueVerifiedImpactToken` (source lines 58–97); `new Date()`
and `Date.now()` are the explicit `nowIso`/`nowMs` parameters. The
function performs no input validation. -/
def issueVerifiedImpactToken (userId : String) (missionData : MissionData)
    (organizationSignature : String) (metadata : List (String × String))
    (nowIso : String) (nowMs : Nat) : VerifiedImpactToken :=
  let tokenWithoutHash : VerifiedImpactToken :=
    { tokenId := generateTokenId userId missionData.id nowMs
      userId := userId
      missionId := missionData.id
      missionTitle := missionData.title
      issuanceDate := nowIso
      expirationDate := none
      organization := missionData.organization
      impactSignalStrength := missionData.impactSignalStrength
      skillsMastered := missionData.skillsMastered
      verificationHash := ""
      organizationSignature := organizationSignature
      nonTransferable := true
      status := .active
      metadata := metadata }
  { tokenWithoutHash with verificationHash := computeTokenHashPreIssue tokenWithoutHash }

/-- JS object-spread update of an association list: overwrite the binding
in place when the key exists, append it otherwise. -/
def setKey (m : List (String × String)) (k v : String) : List (String × String) :=
  if m.any (fun p => p.1 == k) then
    m.map (fun p => if p.1 = k then (k, v) else p)
  else
    m ++ [(k, v)]

/-- `revokeToken` (source lines 263–283); `new Date().toISOString()` is
the explicit `nowIso` parameter. Note the recomputed hash is taken over
the object that still carries the old `verificationHash` property. -/
def revokeToken (token : VerifiedImpactToken) (reason revokerSignature : String)
    (nowIso : String) : VerifiedImpactToken :=
  let revokedToken : VerifiedImpactToken :=
    { token with
      status := .revoked
      metadata :=
        setKey (setKey (setKey token.metadata "revocationReason" reason)
          "revocationDate" nowIso) "revokerSignature" revokerSignature }
  { revokedToken with verificationHash := computeTokenHash revokedToken }

/-- `action: 'issue' | 'verify' | 'revoke' | 'dispute'`. -/
inductive LedgerAction
  | issue
  | verify
  | revoke
  | dispute
deriving DecidableEq, Repr

def actionStr : LedgerAction → String
  | .issue => "issue"
  | .verify => "verify"
  | .revoke => "revoke"
  | .dispute => "dispute"

structure OrgSignature where
  organizationId : String
  signature : String
  timestamp : String
deriving DecidableEq, Repr

/-- `LedgerEntry` (source lines 29–42). -/
structure LedgerEntry where
  blockId : String
  timestamp : String
  userId : String
  action : LedgerAction
  token : VerifiedImpactToken
  previousHash : String
  currentHash : String
  signatures : List OrgSignature
deriving DecidableEq, Repr

/-- Under the block's sorted key whitelist, the nested token object keeps
only its `userId` property (none of the block keys other than `userId`
occur on a token). -/
def tokenInBlockJson (t : VerifiedImpactToken) : String :=
  lb ++ jstr "userId" ++ ":" ++ jstr t.userId ++ rb

/-- Under the block's sorted key whitelist, a signature record keeps only
its `timestamp` property (`organizationId` and `signature` are not block
keys). -/
def sigJson (s : OrgSignature) : String :=
  lb ++ jstr "timestamp" ++ ":" ++ jstr s.timestamp ++ rb

def sigsJson (l : List OrgSignature) : String :=
  "[" ++ String.intercalate "," (l.map sigJson) ++ "]"

/-- `JSON.stringify(block, Object.keys(block).sort())`. `withHash` states
whether the serialized object carries the `currentHash` property: false
for `blockWithoutHash` at `recordLedgerEntry` time, true for the stored
entries re-hashed by `verifyLedgerIntegrity`. -/
def blockJson (withHash : Bool) (b : LedgerEntry) : String :=
  lb ++
  jstr "action" ++ ":" ++ jstr (actionStr b.action) ++ "," ++
  jstr "blockId" ++ ":" ++ jstr b.blockId ++
  (if withHash then "," ++ jstr "currentHash" ++ ":" ++ jstr b.currentHash else "") ++ "," ++
  jstr "previousHash" ++ ":" ++ jstr b.previousHash ++ "," ++
  jstr "signatures" ++ ":" ++ sigsJson b.signatures ++ "," ++
  jstr "timestamp" ++ ":" ++ jstr b.timestamp ++ "," ++
  jstr "token" ++ ":" ++ tokenInBlockJson b.token ++ "," ++
  jstr "userId" ++ ":" ++ jstr b.userId ++
  rb

/-- `computeBlockHash` (source lines 309–312) applied to a stored entry,
as `verifyLedgerIntegrity` does: the object carries `currentHash`. -/
def computeBlockHash (b : LedgerEntry) : String :=
  hashString (blockJson true b)

/-- `computeBlockHash` applied to `blockWithoutHash` at record time: the
object has no `currentHash` property yet. -/
def computeBlockHashPreRecord (b : LedgerEntry) : String :=
  hashString (blockJson false b)

/-- `recordLedgerEntry` (source lines 103–132); `generateBlockId()` and
`new Date().toISOString()` are the explicit `blockId`/`timestamp`
parameters. -/
def recordLedgerEntry (token : VerifiedImpactToken) (previousBlockHash : String)
    (organizationSignatures : List (String × String))
    (blockId timestamp : String) : LedgerEntry :=
  let blockWithoutHash : LedgerEntry :=
    { blockId := blockId
      timestamp := timestamp
      userId := token.userId
      action := .issue
      token := token
      previousHash := previousBlockHash
      currentHash := ""
      signatures := organizationSignatures.map (fun sig => ⟨sig.1, sig.2, timestamp⟩) }
  { blockWithoutHash with currentHash := computeBlockHashPreRecord blockWithoutHash }

structure VerifyTokenResult where
  isValid : Bool
  issues : List String
deriving DecidableEq, Repr

/-- `verifyTokenAuthenticity` (source lines 137–168): the four issue
pushes, in source order. -/
def verifyTokenAuthenticity (token : VerifiedImpactToken)
    (ledgerEntry : LedgerEntry) : VerifyTokenResult :=
  let issues : List String :=
    (if computeTokenHash token ≠ token.verificationHash then
       ["Token has been tampered with. Hash mismatch detected."] else []) ++
    (if token.status = .revoked then ["Token has been revoked."] else []) ++
    (if !token.nonTransferable then ["Token does not have non-transferable flag."] else []) ++
    (if ledgerEntry.signatures.isEmpty then ["No organization signatures present."] else [])
  { isValid := issues.isEmpty, issues := issues }

def chainBrokenMsg (i j : Nat) (expected got : String) : String :=
  "Chain broken between block " ++ toString i ++ " and " ++ toString j ++
  ": Expected " ++ expected ++ ", got " ++ got

def hashMismatchMsg (i : Nat) : String :=
  "Block " ++ toString i ++ " hash mismatch. Potential tampering detected."

/-- The loop body of `verifyLedgerIntegrity` for indices `i ≥ 1`, carrying
the previous block. -/
def verifyLedgerAux : LedgerEntry → List LedgerEntry → Nat → List String
  | _, [], _ => []
  | prev, cur :: rest, i =>
      (if cur.previousHash ≠ prev.currentHash then
         [chainBrokenMsg (i - 1) i prev.currentHash cur.previousHash] else []) ++
      (if computeBlockHash cur ≠ cur.currentHash then [hashMismatchMsg i] else []) ++
      verifyLedgerAux cur rest (i + 1)

structure IntegrityResult where
  isIntact : Bool
  brokenLinks : List String
deriving DecidableEq, Repr

/-- `verifyLedgerIntegrity` (source lines 351–378): the loop starts at
index 1, so a ledger of at most one entry is never examined. -/
def verifyLedgerIntegrity (ledger : List LedgerEntry) : IntegrityResult :=
  let brokenLinks :=
    match ledger with
    | [] => []
    | first :: rest => verifyLedgerAux first rest 1
  { isIntact := brokenLinks.isEmpty, brokenLinks := brokenLinks }

inductive AlertType
  | duplicate_claim
  | suspicious_pattern
  | verification_mismatch
  | token_manipulation
deriving DecidableEq, Repr

inductive Severity
  | low
  | medium
  | high
deriving DecidableEq, Repr

inductive AlertAction
  | flag
  | block
  | investigate
deriving DecidableEq, Repr

/-- `AnomalyDetectionAlert` (source lines 44–52). -/
structure AnomalyDetectionAlert where
  alertId : String
  userId : String
  alertType : AlertType
  severity : Severity
  description : String
  timestamp : String
  action : AlertAction
deriving DecidableEq, Repr

/-- `detectDuplicateClaims` (source lines 173–196); `generateAlertId()`
and `new Date().toISOString()` are the explicit `alertId`/`nowIso`
parameters. -/
def detectDuplicateClaims (userId missionId : String)
    (existingTokens : List VerifiedImpactToken)
    (alertId nowIso : String) : Option AnomalyDetectionAlert :=
  match existingTokens.find? (fun token =>
      token.userId == userId && token.missionId == missionId
        && token.status == .active) with
  | some _ =>
      some { alertId := alertId
             userId := userId
             alertType := .duplicate_claim
             severity := .high
             description := "User attempted to claim the same mission (" ++
               missionId ++ ") twice. Duplicate detected."
             timestamp := nowIso
             action := .block }
  | none => none

/-- `getUserTokenHistory` (source lines 288–295): only entries with
`action === 'issue'` for the user are kept, and their token snapshots are
returned. -/
def getUserTokenHistory (userId : String) (ledger : List LedgerEntry) :
    List VerifiedImpactToken :=
  (ledger.filter (fun entry => entry.userId == userId && entry.action == .issue)).map
    (fun entry => entry.token)

/-! ## Impact effectiveness model (anomaly detection)

From `src/impact-ledger/src/services/impactEffectivenessModel.ts`,
`detectAnomalousImpactClaims` (lines 290–336). JS floating-point numbers
are modelled as real numbers; `Math.sqrt` is `Real.sqrt`, so these
definitions are noncomputable. The structures keep exactly the fields the
function reads. -/

structure ImpactScoreRec where
  missionId : String
  compositeImpactSignalStrength : ℝ
  organizationVerificationScore : ℝ

structure MeasurableOutcome where
  targetValue : ℝ
  actualValue : ℝ

structure UserMission where
  score : ImpactScoreRec
  outcomes : List MeasurableOutcome

/-- `scores.reduce((a, b) => a + b, 0) / scores.length`. -/
noncomputable def avgOf (scores : List ℝ) : ℝ :=
  scores.sum / scores.length

/-- `Math.sqrt(scores.reduce((sum, s) => sum + (s - avg)^2, 0) / scores.length)`. -/
noncomputable def stdDevOf (scores : List ℝ) : ℝ :=
  Real.sqrt ((scores.map (fun s => (s - avgOf scores) ^ 2)).sum / scores.length)

/-- `Math.abs((x - avgScore) / (stdDev || 1))`; `0 || 1` is `1` in JS. -/
noncomputable def zScoreOf (scores : List ℝ) (x : ℝ) : ℝ :=
  |(x - avgOf scores) / (if stdDevOf scores = 0 then 1 else stdDevOf scores)|

/-- The z-score branch of the per-mission loop. -/
noncomputable def outlierItems (scores : List ℝ) (m : UserMission) : List String :=
  if 3 < zScoreOf scores m.score.compositeImpactSignalStrength then
    ["Outlier score detected: " ++ m.score.missionId]
  else []

/-- The outcome-inflation branch of the per-mission loop. -/
noncomputable def inflationItems (m : UserMission) : List String :=
  m.outcomes.filterMap (fun o =>
    if o.targetValue * 2 < o.actualValue then
      some ("Potential outcome inflation in " ++ m.score.missionId)
    else none)

/-- The unverified-high-impact check of the second loop. -/
noncomputable def unverifiedItems (m : UserMission) : List String :=
  if 80 < m.score.compositeImpactSignalStrength ∧
      m.score.organizationVerificationScore < 30 then
    ["High impact claim without verification: " ++ m.score.missionId]
  else []

structure AnomalyReport where
  isAnomalous : Bool
  riskScore : Nat
  flaggedItems : List String

/-- `detectAnomalousImpactClaims` (lines 290–336): first loop interleaves
the z-score and inflation items per mission, second loop appends the
unverified-high-impact items; the risk score adds 15 per outlier, 10 per
inflated outcome and 20 per unverified high-impact claim, is compared to
20 before clamping and clamped to 100 in the report. -/
noncomputable def detectAnomalousImpactClaims (userMissions : List UserMission) :
    AnomalyReport :=
  let scores := userMissions.map (fun m => m.score.compositeImpactSignalStrength)
  let flaggedItems :=
    userMissions.flatMap (fun m => outlierItems scores m ++ inflationItems m) ++
    userMissions.flatMap unverifiedItems
  let riskScore : Nat :=
    (userMissions.map (fun m =>
      15 * (outlierItems scores m).length + 10 * (inflationItems m).length)).sum +
    (userMissions.map (fun m => 20 * (unverifiedItems m).length)).sum
  { isAnomalous := decide (20 < riskScore)
    riskScore := min 100 riskScore
    flaggedItems := flaggedItems }

/-! ## Concrete sample values

Concrete issuance inputs used by the closed theorems below; every
environment read (timestamps, generated identifiers) is instantiated with
a fixed value. -/

def sampleMission1 : MissionData :=
  { id := "m1", title := "T1", organization := "O1",
    skillsMastered := [], impactSignalStrength := 50 }

def sampleMission2 : MissionData :=
  { id := "m2", title := "T2", organization := "O2",
    skillsMastered := [], impactSignalStrength := 70 }

def sampleToken1 : VerifiedImpactToken :=
  issueVerifiedImpactToken "u1" sampleMission1 "s1" [] "d1" 7

def sampleToken2 : VerifiedImpactToken :=
  issueVerifiedImpactToken "u2" sampleMission2 "s2" [] "d2" 8

/-- First honest append: previous hash is the `'genesis'` default. -/
def sampleEntry1 : LedgerEntry :=
  recordLedgerEntry sampleToken1 "genesis" [] "B1" "t1"

/-- Second honest append: linked to the first entry's stored hash. -/
def sampleEntry2 : LedgerEntry :=
  recordLedgerEntry sampleToken2 sampleEntry1.currentHash [] "B2" "t2"

/-- An entry for `sampleToken1` carrying one organization signature. -/
def sampleSignedEntry : LedgerEntry :=
  recordLedgerEntry sampleToken1 "genesis" [("o1", "os1")] "B1" "t1"

/-- A first revocation of `sampleToken1`. -/
def sampleRevoked : VerifiedImpactToken :=
  revokeToken sampleToken1 "fraud detected" "rs1" "rd1"

/-- A second revocation applied to the already-revoked snapshot. -/
def doubleRevoked : VerifiedImpactToken :=
  revokeToken sampleRevoked "second reason" "rs2" "rd2"

/-- A `revoke`-action ledger entry for user `u1`. -/
def sampleRevokeEntry : LedgerEntry :=
  { blockId := "B3"
    timestamp := "t3"
    userId := "u1"
    action := .revoke
    token := sampleRevoked
    previousHash := sampleEntry1.currentHash
    currentHash := "deadbeef"
    signatures := [] }

/-- A mission whose impact strength is out of range. -/
def sampleMission9 : MissionData :=
  { id := "m9", title := "T9", organization := "O9",
    skillsMastered := [], impactSignalStrength := 150 }

/-- A token issued with an out-of-range impact strength and an empty
organization signature. -/
def invalidIssueToken : VerifiedImpactToken :=
  issueVerifiedImpactToken "u9" sampleMission9 "" [] "d9" 9

/-- Two records identical except for the value bound to the metadata key
`"note"` (a key that is not a token field name). -/
def tokenMetaA : VerifiedImpactToken :=
  { tokenId := "tk1", userId := "u1", missionId := "m1", missionTitle := "T1",
    issuanceDate := "d1", expirationDate := none, organization := "O1",
    impactSignalStrength := 50, skillsMastered := [], verificationHash := "vh",
    organizationSignature := "s1", nonTransferable := true, status := .active,
    metadata := [("note", "first")] }

def tokenMetaB : VerifiedImpactToken :=
  { tokenMetaA with metadata := [("note", "second")] }

/-- Two user missions with maximally divergent impact strengths. -/
noncomputable def divergentMissionLow : UserMission :=
  { score := { missionId := "mission-low", compositeImpactSignalStrength := 0,
               organizationVerificationScore := 50 }
    outcomes := [] }

noncomputable def divergentMissionHigh : UserMission :=
  { score := { missionId := "mission-high", compositeImpactSignalStrength := 100,
               organizationVerificationScore := 50 }
    outcomes := [] }

/-! ## Supporting lemmas -/

set_option maxRecDepth 25000

/-- The signed loop step and the unsigned loop step compute the same
32-bit residue. -/
theorem hashStep_ofUnsigned (u c : Nat) :
    hashStep (ofUnsigned u) c = ofUnsigned (natHashStep u c) := by
  simp only [hashStep, toInt32, ofUnsigned, natHashStep]
  split_ifs <;> push_cast <;> omega

theorem foldl_signed_eq_unsigned (l : List Char) : ∀ u : Nat,
    l.foldl (fun h c => hashStep h c.toNat) (ofUnsigned u) =
      ofUnsigned (l.foldl (fun u c => natHashStep u c.toNat) u) := by
  induction l with
  | nil => intro u; rfl
  | cons c cs ih =>
    intro u
    simp only [List.foldl_cons]
    rw [hashStep_ofUnsigned u c.toNat]
    exact ih (natHashStep u c.toNat)

/-- `hashString` (the unsigned-residue computation) agrees with the
direct signed 32-bit semantics of the source loop. -/
theorem hashString_faithful (s : String) : hashString s = hashStringSigned s := by
  unfold hashString hashStringSigned hashFoldNat
  have h0 : ofUnsigned 0 = (0 : Int) := by simp [ofUnsigned]
  rw [← foldl_signed_eq_unsigned s.data 0, h0]

theorem hashFoldNat_append (u : Nat) (s t : String) :
    hashFoldNat u (s ++ t) = hashFoldNat (hashFoldNat u s) t := by
  simp [hashFoldNat, String.data_append, List.foldl_append]

/-- The verification hash stored by `issueVerifiedImpactToken` is the
hash of the issuance-path serialization of the returned token (the
serialization does not read the `verificationHash` field). -/
theorem issue_verificationHash (userId : String) (md : MissionData)
    (sig : String) (meta : List (String × String)) (nowIso : String) (nowMs : Nat) :
    (issueVerifiedImpactToken userId md sig meta nowIso nowMs).verificationHash =
      hashString (tokenJson false (issueVerifiedImpactToken userId md sig meta nowIso nowMs)) := rfl

/-- The current hash stored by `recordLedgerEntry` is the hash of the
record-path serialization of the returned entry (the serialization does
not read the `currentHash` field). -/
theorem record_currentHash (token : VerifiedImpactToken) (prev : String)
    (sigs : List (String × String)) (bid ts : String) :
    (recordLedgerEntry token prev sigs bid ts).currentHash =
      hashString (blockJson false (recordLedgerEntry token prev sigs bid ts)) := rfl

theorem lookupStr_eq_none (k : String) :
    ∀ m : List (String × String), (∀ p ∈ m, p.1 ≠ k) → lookupStr m k = none := by
  intro m
  induction m with
  | nil => intro _; rfl
  | cons p es ih =>
    intro h
    have hp : ¬ p.1 = k := h p (List.mem_cons_self p es)
    simp only [lookupStr, hp, if_false]
    exact ih (fun q hq => h q (List.mem_cons_of_mem p hq))

theorem lookupStr_overwrite (k v : String) :
    ∀ m : List (String × String), (∃ p ∈ m, p.1 = k) →
      lookupStr (m.map fun p => if p.1 = k then (k, v) else p) k = some v := by
  intro m
  induction m with
  | nil => rintro ⟨p, hp, _⟩; exact absurd hp (List.not_mem_nil p)
  | cons p es ih =>
    rintro ⟨q, hq, hqk⟩
    by_cases hp : p.1 = k
    · simp only [List.map_cons, hp, if_true, lookupStr, if_pos rfl]
    · have hq' : q ∈ es := by
        rcases List.mem_cons.mp hq with h1 | h2
        · exact absurd (h1 ▸ hqk) hp
        · exact h2
      simp only [List.map_cons, hp, if_false, lookupStr]
      exact ih ⟨q, hq', hqk⟩

theorem lookupStr_overwrite_ne (k v k' : String) (hne : k' ≠ k) :
    ∀ m : List (String × String),
      lookupStr (m.map fun p => if p.1 = k then (k, v) else p) k' =
        lookupStr m k' := by
  intro m
  induction m with
  | nil => rfl
  | cons p es ih =>
    by_cases hp : p.1 = k
    · have hp' : ¬ p.1 = k' := by rw [hp]; exact fun hk => hne hk.symm
      have hk' : ¬ k = k' := fun hk => hne hk.symm
      simp only [List.map_cons, hp, if_true, lookupStr, hk', if_false, hp']
      exact ih
    · simp only [List.map_cons, hp, if_false, lookupStr]
      by_cases hpk' : p.1 = k'
      · simp only [hpk', if_true]
      · simp only [hpk', if_false]
        exact ih

theorem lookupStr_append_single_self (k v : String) :
    ∀ m : List (String × String), lookupStr m k = none →
      lookupStr (m ++ [(k, v)]) k = some v := by
  intro m
  induction m with
  | nil => intro _; simp [lookupStr]
  | cons p es ih =>
    intro h
    by_cases hp : p.1 = k
    · simp [lookupStr, hp] at h
    · simp only [lookupStr, hp, if_false] at h
      simp only [List.cons_append, lookupStr, hp, if_false]
      exact ih h

theorem lookupStr_append_single_ne (k v k' : String) (hne : k' ≠ k) :
    ∀ m : List (String × String),
      lookupStr (m ++ [(k, v)]) k' = lookupStr m k' := by
  intro m
  induction m with
  | nil =>
    have hk' : ¬ k = k' := fun hk => hne hk.symm
    simp [lookupStr, hk']
  | cons p es ih =>
    by_cases hp : p.1 = k'
    · simp only [List.cons_append, lookupStr, hp, if_true]
    · simp only [List.cons_append, lookupStr, hp, if_false]
      exact ih

/-- JS spread update: the updated key is bound to the new value. -/
theorem lookupStr_setKey_self (m : List (String × String)) (k v : String) :
    lookupStr (setKey m k v) k = some v := by
  unfold setKey
  by_cases h : (m.any fun p => p.1 == k) = true
  · rw [if_pos h]
    have hex : ∃ p ∈ m, p.1 = k := by
      simpa using List.any_eq_true.mp h
    exact lookupStr_overwrite k v m hex
  · rw [if_neg h]
    have hall : ∀ p ∈ m, p.1 ≠ k := by
      have hfa := List.any_eq_false.mp (Bool.eq_false_iff.mpr h)
      intro p hp
      simpa using hfa p hp
    exact lookupStr_append_single_self k v m (lookupStr_eq_none k m hall)

/-- JS spread update: other keys are untouched. -/
theorem lookupStr_setKey_ne (m : List (String × String)) (k v k' : String)
    (hne : k' ≠ k) : lookupStr (setKey m k v) k' = lookupStr m k' := by
  unfold setKey
  by_cases h : (m.any fun p => p.1 == k) = true
  · rw [if_pos h]; exact lookupStr_overwrite_ne k v k' hne m
  · rw [if_neg h]; exact lookupStr_append_single_ne k v k' hne m

/-- The snapshot returned by `revokeToken` records the revocation reason
in its metadata. -/
theorem revokeToken_metadata_reason (token : VerifiedImpactToken)
    (reason sig nowIso : String) :
    lookupStr (revokeToken token reason sig nowIso).metadata "revocationReason" =
      some reason := by
  show lookupStr (setKey (setKey (setKey token.metadata "revocationReason" reason)
    "revocationDate" nowIso) "revokerSignature" sig) "revocationReason" = some reason
  rw [lookupStr_setKey_ne _ _ _ _ (by decide), lookupStr_setKey_ne _ _ _ _ (by decide),
    lookupStr_setKey_self]

/-- The snapshot returned by `revokeToken` records the revoker signature
in its metadata. -/
theorem revokeToken_metadata_signature (token : VerifiedImpactToken)
    (reason sig nowIso : String) :
    lookupStr (revokeToken token reason sig nowIso).metadata "revokerSignature" =
      some sig := by
  show lookupStr (setKey (setKey (setKey token.metadata "revocationReason" reason)
    "revocationDate" nowIso) "revokerSignature" sig) "revokerSignature" = some sig
  rw [lookupStr_setKey_self]

theorem filterMap_eq_nil_of_none {α β : Type} (f : α → Option β) :
    ∀ l : List α, (∀ a ∈ l, f a = none) → l.filterMap f = [] := by
  intro l
  induction l with
  | nil => intro _; rfl
  | cons a es ih =>
    intro h
    rw [List.filterMap_cons, h a (List.mem_cons_self a es)]
    exact ih (fun b hb => h b (List.mem_cons_of_mem a hb))

/-- Metadata entries whose keys are not in the serialization whitelist
leave no trace in the serialized object. -/
theorem serializeMeta_foreign (wl : List String) (m : List (String × String))
    (h : ∀ p ∈ m, p.1 ∉ wl) : serializeMeta wl m = serializeMeta wl [] := by
  unfold serializeMeta
  rw [filterMap_eq_nil_of_none _ wl (fun k hk => ?_),
    filterMap_eq_nil_of_none (f := fun k =>
      (lookupStr [] k).map (fun v => jstr k ++ ":" ++ jstr v)) wl (fun k _ => rfl)]
  rw [lookupStr_eq_none k m (fun p hp hpk => h p hp (hpk ▸ hk))]
  rfl

/-- For populations of size 0, 1 or 2, the z-score the source computes
never exceeds 3: with one sample it is 0, and with two distinct samples
the deviation of each equals the standard deviation, so the score is 1. -/
theorem zScoreOf_le_three_of_small (scores : List ℝ) (h : scores.length < 3)
    (x : ℝ) (hx : x ∈ scores) : zScoreOf scores x ≤ 3 := by
  rcases scores with _ | ⟨a, _ | ⟨b, _ | ⟨c, rest⟩⟩⟩
  · simp at hx
  · have hxa : x = a := by simpa using hx
    have havg : avgOf [a] = a := by simp [avgOf]
    have hsd : stdDevOf [a] = 0 := by
      simp [stdDevOf, havg]
    subst hxa
    rw [zScoreOf, havg, hsd]
    simp
  · have havg : avgOf [a, b] = (a + b) / 2 := by
      simp only [avgOf, List.sum_cons, List.sum_nil, List.length_cons,
        List.length_nil]
      norm_num
    have h1 : a - avgOf [a, b] = (a - b) / 2 := by rw [havg]; ring
    have h2 : b - avgOf [a, b] = -((a - b) / 2) := by rw [havg]; ring
    have hvar : (([a, b].map (fun s => (s - avgOf [a, b]) ^ 2)).sum /
        ([a, b].length : ℝ)) = ((a - b) / 2) ^ 2 := by
      simp only [List.map_cons, List.map_nil, List.sum_cons, List.sum_nil,
        List.length_cons, List.length_nil, h1, h2]
      norm_num
    have hsd : stdDevOf [a, b] = |(a - b) / 2| := by
      rw [stdDevOf, hvar]
      exact Real.sqrt_sq_eq_abs ((a - b) / 2)
    have hx' : x = a ∨ x = b := by simpa using hx
    by_cases hd : (a - b) / 2 = 0
    · have hsd0 : stdDevOf [a, b] = 0 := by rw [hsd, hd, abs_zero]
      have hxz : x - avgOf [a, b] = 0 := by
        rcases hx' with rfl | rfl
        · rw [h1, hd]
        · rw [h2, hd, neg_zero]
      rw [zScoreOf, if_pos hsd0, hxz]
      norm_num
    · have hsdne : stdDevOf [a, b] ≠ 0 := by
        rw [hsd]
        exact abs_ne_zero.mpr hd
      rw [zScoreOf, if_neg hsdne, hsd]
      have habs : |x - avgOf [a, b]| = |(a - b) / 2| := by
        rcases hx' with rfl | rfl
        · rw [h1]
        · rw [h2, abs_neg]
      rw [abs_div, abs_abs, habs, div_self (abs_ne_zero.mpr hd)]
      norm_num
  · exfalso
    simp only [List.length_cons] at h
    omega

theorem flatMap_congr_of_mem {α β : Type} (f g : α → List β) :
    ∀ l : List α, (∀ a ∈ l, f a = g a) → l.flatMap f = l.flatMap g := by
  intro l
  induction l with
  | nil => intro _; rfl
  | cons a es ih =>
    intro h
    simp only [List.flatMap_cons, h a (List.mem_cons_self a es),
      ih (fun b hb => h b (List.mem_cons_of_mem a hb))]


/-! ## Claim theorems -/

/-- C1 (code bug): an honestly built two-entry ledger — the second entry
linked to the first entry's stored hash, nothing mutated — is reported as
broken: `verifyLedgerIntegrity` recomputes each block hash over the
stored entry, whose serialization now carries the `currentHash` property
that was absent when the stored hash was computed, so it flags a hash
mismatch at block 1 even though no tampering occurred. The claim's
"no tampering implies intact with no broken links" is false of the code. -/
theorem honest_ledger_verification_reports_mismatch :
    sampleEntry2.previousHash = sampleEntry1.currentHash ∧
    verifyLedgerIntegrity [sampleEntry1, sampleEntry2] =
      { isIntact := false,
        brokenLinks := ["Block 1 hash mismatch. Potential tampering detected."] } := by
  have hb1 : blockJson false sampleEntry1 = "\x7b\"action\":\"issue\",\"blockId\":\"B1\",\"previousHash\":\"genesis\",\"signatures\":[],\"timestamp\":\"t1\",\"token\":\x7b\"userId\":\"u1\"\x7d,\"userId\":\"u1\"\x7d" := by decide
  have hzb1 : hashString "\x7b\"action\":\"issue\",\"blockId\":\"B1\",\"previousHash\":\"genesis\",\"signatures\":[],\"timestamp\":\"t1\",\"token\":\x7b\"userId\":\"u1\"\x7d,\"userId\":\"u1\"\x7d" = "4ee8b920" := by decide
  have hc1 : sampleEntry1.currentHash = "4ee8b920" := by
    rw [show sampleEntry1.currentHash = hashString (blockJson false sampleEntry1) from
      record_currentHash sampleToken1 "genesis" [] "B1" "t1", hb1, hzb1]
  have hlink : sampleEntry2.previousHash = sampleEntry1.currentHash := rfl
  have hp2 : sampleEntry2.previousHash = "4ee8b920" := by rw [hlink, hc1]
  have hb2 : blockJson false sampleEntry2 = "\x7b\"action\":\"issue\",\"blockId\":\"B2\",\"previousHash\":\"4ee8b920\",\"signatures\":[],\"timestamp\":\"t2\",\"token\":\x7b\"userId\":\"u2\"\x7d,\"userId\":\"u2\"\x7d" := by
    simp only [blockJson]
    rw [hp2]
    decide
  have hzb2 : hashString "\x7b\"action\":\"issue\",\"blockId\":\"B2\",\"previousHash\":\"4ee8b920\",\"signatures\":[],\"timestamp\":\"t2\",\"token\":\x7b\"userId\":\"u2\"\x7d,\"userId\":\"u2\"\x7d" = "28d8cb1b" := by decide
  have hcur2 : sampleEntry2.currentHash = "28d8cb1b" := by
    rw [show sampleEntry2.currentHash = hashString (blockJson false sampleEntry2) from
      record_currentHash sampleToken2 sampleEntry1.currentHash [] "B2" "t2", hb2, hzb2]
  have hbt2 : blockJson true sampleEntry2 = "\x7b\"action\":\"issue\",\"blockId\":\"B2\",\"currentHash\":\"28d8cb1b\",\"previousHash\":\"4ee8b920\",\"signatures\":[],\"timestamp\":\"t2\",\"token\":\x7b\"userId\":\"u2\"\x7d,\"userId\":\"u2\"\x7d" := by
    simp only [blockJson]
    rw [hp2, hcur2]
    decide
  have hzbt2 : hashString "\x7b\"action\":\"issue\",\"blockId\":\"B2\",\"currentHash\":\"28d8cb1b\",\"previousHash\":\"4ee8b920\",\"signatures\":[],\"timestamp\":\"t2\",\"token\":\x7b\"userId\":\"u2\"\x7d,\"userId\":\"u2\"\x7d" = "283e172e" := by decide
  have hcb2 : computeBlockHash sampleEntry2 = "283e172e" := by
    rw [show computeBlockHash sampleEntry2 = hashString (blockJson true sampleEntry2) from rfl,
      hbt2, hzbt2]
  refine ⟨hlink, ?_⟩
  simp only [verifyLedgerIntegrity, verifyLedgerAux, hp2, hc1, hcb2, hcur2]
  decide

/-- C2 (code bug): `verifyTokenAuthenticity` applied to an unmodified
token straight out of `issueVerifiedImpactToken` reports a hash
mismatch: the recomputation serializes the token's `verificationHash`
property, which was absent when the stored digest was computed, so the
round-trip digest check always fails. -/
theorem verify_after_issue_reports_tampering :
    verifyTokenAuthenticity sampleToken1 sampleSignedEntry =
      { isValid := false,
        issues := ["Token has been tampered with. Hash mismatch detected."] } := by
  have htj : tokenJson false sampleToken1 = "\x7b\"expirationDate\":null,\"impactSignalStrength\":50,\"issuanceDate\":\"d1\",\"metadata\":\x7b\x7d,\"missionId\":\"m1\",\"missionTitle\":\"T1\",\"nonTransferable\":true,\"organization\":\"O1\",\"organizationSignature\":\"s1\",\"skillsMastered\":[],\"status\":\"active\",\"tokenId\":\"TOKEN-u1-m1-7\",\"userId\":\"u1\"\x7d" := by decide
  have hsplit : ("\x7b\"expirationDate\":null,\"impactSignalStrength\":50,\"issuanceDate\":\"d1\",\"metadata\":\x7b\x7d,\"missionId\":\"m1\",\"missionTitle\":\"T1\",\"nonTransferable\":true,\"organization\":\"O1\",\"organizationSignature\":\"s1\",\"skillsMastered\":[],\"status\":\"active\",\"tokenId\":\"TOKEN-u1-m1-7\",\"userId\":\"u1\"\x7d" : String) = "\x7b\"expirationDate\":null,\"impactSignalStrength\":50,\"issuanceDate\":\"d1\",\"metadata\":\x7b\x7d,\"missionId\":\"m1\",\"missionTitle\":\"T1\",\"nonTransferabl" ++ "e\":true,\"organization\":\"O1\",\"organizationSignature\":\"s1\",\"skillsMastered\":[],\"status\":\"active\",\"tokenId\":\"TOKEN-u1-m1-7\",\"userId\":\"u1\"\x7d" := by decide
  have hq1 : hashFoldNat 0 "\x7b\"expirationDate\":null,\"impactSignalStrength\":50,\"issuanceDate\":\"d1\",\"metadata\":\x7b\x7d,\"missionId\":\"m1\",\"missionTitle\":\"T1\",\"nonTransferabl" = 2045753063 := by decide
  have hq2 : hashFoldNat 2045753063 "e\":true,\"organization\":\"O1\",\"organizationSignature\":\"s1\",\"skillsMastered\":[],\"status\":\"active\",\"tokenId\":\"TOKEN-u1-m1-7\",\"userId\":\"u1\"\x7d" = 1300507503 := by decide
  have hz270 : hashString "\x7b\"expirationDate\":null,\"impactSignalStrength\":50,\"issuanceDate\":\"d1\",\"metadata\":\x7b\x7d,\"missionId\":\"m1\",\"missionTitle\":\"T1\",\"nonTransferable\":true,\"organization\":\"O1\",\"organizationSignature\":\"s1\",\"skillsMastered\":[],\"status\":\"active\",\"tokenId\":\"TOKEN-u1-m1-7\",\"userId\":\"u1\"\x7d" = "4d842b6f" := by
    unfold hashString
    rw [hsplit, hashFoldNat_append, hq1, hq2]
    decide
  have hvh : sampleToken1.verificationHash = "4d842b6f" := by
    rw [show sampleToken1.verificationHash =
        hashString (tokenJson false sampleToken1) from
      issue_verificationHash "u1" sampleMission1 "s1" [] "d1" 7, htj, hz270]
  have htjt : tokenJson true sampleToken1 = "\x7b\"expirationDate\":null,\"impactSignalStrength\":50,\"issuanceDate\":\"d1\",\"metadata\":\x7b\x7d,\"missionId\":\"m1\",\"missionTitle\":\"T1\",\"nonTransferable\":true,\"organization\":\"O1\",\"organizationSignature\":\"s1\",\"skillsMastered\":[],\"status\":\"active\",\"tokenId\":\"TOKEN-u1-m1-7\",\"userId\":\"u1\",\"verificationHash\":\"4d842b6f\"\x7d" := by
    simp only [tokenJson]
    rw [hvh]
    decide
  have hsplit2 : ("\x7b\"expirationDate\":null,\"impactSignalStrength\":50,\"issuanceDate\":\"d1\",\"metadata\":\x7b\x7d,\"missionId\":\"m1\",\"missionTitle\":\"T1\",\"nonTransferable\":true,\"organization\":\"O1\",\"organizationSignature\":\"s1\",\"skillsMastered\":[],\"status\":\"active\",\"tokenId\":\"TOKEN-u1-m1-7\",\"userId\":\"u1\",\"verificationHash\":\"4d842b6f\"\x7d" : String) = "\x7b\"expirationDate\":null,\"impactSignalStrength\":50,\"issuanceDate\":\"d1\",\"metadata\":\x7b\x7d,\"missionId\":\"m1\",\"missionTitle\":\"T1\",\"nonTransferable\":true,\"organi" ++ "zation\":\"O1\",\"organizationSignature\":\"s1\",\"skillsMastered\":[],\"status\":\"active\",\"tokenId\":\"TOKEN-u1-m1-7\",\"userId\":\"u1\",\"verificationHash\":\"4d842b6f\"\x7d" := by decide
  have hr1 : hashFoldNat 0 "\x7b\"expirationDate\":null,\"impactSignalStrength\":50,\"issuanceDate\":\"d1\",\"metadata\":\x7b\x7d,\"missionId\":\"m1\",\"missionTitle\":\"T1\",\"nonTransferable\":true,\"organi" = 3645978418 := by decide
  have hr2 : hashFoldNat 3645978418 "zation\":\"O1\",\"organizationSignature\":\"s1\",\"skillsMastered\":[],\"status\":\"active\",\"tokenId\":\"TOKEN-u1-m1-7\",\"userId\":\"u1\",\"verificationHash\":\"4d842b6f\"\x7d" = 2853877636 := by decide
  have hz300 : hashString "\x7b\"expirationDate\":null,\"impactSignalStrength\":50,\"issuanceDate\":\"d1\",\"metadata\":\x7b\x7d,\"missionId\":\"m1\",\"missionTitle\":\"T1\",\"nonTransferable\":true,\"organization\":\"O1\",\"organizationSignature\":\"s1\",\"skillsMastered\":[],\"status\":\"active\",\"tokenId\":\"TOKEN-u1-m1-7\",\"userId\":\"u1\",\"verificationHash\":\"4d842b6f\"\x7d" = "55e5487c" := by
    unfold hashString
    rw [hsplit2, hashFoldNat_append, hr1, hr2]
    decide
  have hct : computeTokenHash sampleToken1 = "55e5487c" := by
    rw [show computeTokenHash sampleToken1 =
        hashString (tokenJson true sampleToken1) from rfl, htjt, hz300]
  simp only [verifyTokenAuthenticity, hct, hvh]
  decide

/-- C3 (counterexample): issuance with impact strength 150 — outside
[0,100] — and an empty organization signature does not fail: it returns a
normal active token carrying exactly those values. -/
theorem issue_invalid_input_returns_token_cex :
    invalidIssueToken.impactSignalStrength = 150 ∧
    invalidIssueToken.organizationSignature = "" ∧
    invalidIssueToken.status = .active :=
  ⟨rfl, rfl, rfl⟩

/-- C3 (amended): `issueVerifiedImpactToken` performs no input
validation: even when the impact strength is outside [0,100] or the
signature is empty, it returns a token with status `active` carrying the
supplied values unchanged. -/
theorem issue_no_validation (userId : String) (md : MissionData) (sig : String)
    (meta : List (String × String)) (nowIso : String) (nowMs : Nat)
    (h : md.impactSignalStrength < 0 ∨ 100 < md.impactSignalStrength ∨ sig = "") :
    (issueVerifiedImpactToken userId md sig meta nowIso nowMs).status = .active ∧
    (issueVerifiedImpactToken userId md sig meta nowIso nowMs).impactSignalStrength =
      md.impactSignalStrength ∧
    (issueVerifiedImpactToken userId md sig meta nowIso nowMs).organizationSignature = sig ∧
    (issueVerifiedImpactToken userId md sig meta nowIso nowMs).userId = userId :=
  ⟨rfl, rfl, rfl, rfl⟩

theorem issue_no_validation_witness :
    (sampleMission9.impactSignalStrength < 0 ∨
      100 < sampleMission9.impactSignalStrength ∨ ("" : String) = "") ∧
    ((issueVerifiedImpactToken "u9" sampleMission9 "" [] "d9" 9).status = .active ∧
      (issueVerifiedImpactToken "u9" sampleMission9 "" [] "d9" 9).impactSignalStrength =
        sampleMission9.impactSignalStrength ∧
      (issueVerifiedImpactToken "u9" sampleMission9 "" [] "d9" 9).organizationSignature = "" ∧
      (issueVerifiedImpactToken "u9" sampleMission9 "" [] "d9" 9).userId = "u9") :=
  ⟨by decide, issue_no_validation "u9" sampleMission9 "" [] "d9" 9 (by decide)⟩

/-- C4 (counterexample): two records that differ in a field value — the
metadata — hash identically: the digest serializes metadata through the
token-key whitelist, so entries under keys that are not token field
names are silently dropped. -/
theorem digest_differing_records_equal_cex :
    tokenMetaA ≠ tokenMetaB ∧
    computeTokenHash tokenMetaA = computeTokenHash tokenMetaB := by
  constructor
  · decide
  · have h : tokenJson true tokenMetaA = tokenJson true tokenMetaB := by decide
    unfold computeTokenHash
    rw [h]

/-- C4 (amended): the digest is a deterministic pure function of the
record computed under the sorted canonical field ordering, but it is not
sensitive to every field difference: records that differ only in
metadata entries whose keys are not token field names have equal
digests. -/
theorem computeTokenHash_ignores_foreign_metadata (t : VerifiedImpactToken)
    (m1 m2 : List (String × String))
    (h1 : ∀ p ∈ m1, p.1 ∉ tokenKeys true) (h2 : ∀ p ∈ m2, p.1 ∉ tokenKeys true) :
    computeTokenHash { t with metadata := m1 } =
      computeTokenHash { t with metadata := m2 } := by
  have hm : ∀ m : List (String × String), (∀ p ∈ m, p.1 ∉ tokenKeys true) →
      serializeMeta (tokenKeys true) m = serializeMeta (tokenKeys true) [] :=
    fun m hm => serializeMeta_foreign (tokenKeys true) m hm
  have e1 := hm m1 h1
  have e2 := hm m2 h2
  suffices h : tokenJson true { t with metadata := m1 } =
      tokenJson true { t with metadata := m2 } by
    unfold computeTokenHash
    rw [h]
  simp only [tokenJson]
  rw [e1, e2]

theorem computeTokenHash_ignores_foreign_metadata_witness :
    (∀ p ∈ [("note", "first")], (p : String × String).1 ∉ tokenKeys true) ∧
    computeTokenHash { tokenMetaA with metadata := [("note", "first")] } =
      computeTokenHash { tokenMetaA with metadata := [("note", "second")] } :=
  ⟨by decide, computeTokenHash_ignores_foreign_metadata tokenMetaA
    [("note", "first")] [("note", "second")] (by decide) (by decide)⟩

/-- C5 (counterexample): revoking an already-revoked token does not fail
with any error: it returns a fresh revoked snapshot whose metadata now
carries the second revocation reason. -/
theorem revoke_nonactive_returns_snapshot_cex :
    sampleRevoked.status ≠ .active ∧
    doubleRevoked.status = .revoked ∧
    lookupStr doubleRevoked.metadata "revocationReason" = some "second reason" := by
  refine ⟨by decide, rfl, ?_⟩
  decide

/-- C5 (amended): `revokeToken` performs no status check: for every
token, including ones already `Revoked` or `Expired`, it succeeds and
produces a new snapshot with status `Revoked` and overwritten revocation
metadata. -/
theorem revoke_no_status_check (token : VerifiedImpactToken)
    (reason revokerSignature nowIso : String) (h : token.status ≠ .active) :
    (revokeToken token reason revokerSignature nowIso).status = .revoked ∧
    lookupStr (revokeToken token reason revokerSignature nowIso).metadata
      "revocationReason" = some reason ∧
    lookupStr (revokeToken token reason revokerSignature nowIso).metadata
      "revokerSignature" = some revokerSignature :=
  ⟨rfl, revokeToken_metadata_reason token reason revokerSignature nowIso,
    revokeToken_metadata_signature token reason revokerSignature nowIso⟩

theorem revoke_no_status_check_witness :
    sampleRevoked.status ≠ .active ∧
    ((revokeToken sampleRevoked "second reason" "rs2" "rd2").status = .revoked ∧
      lookupStr (revokeToken sampleRevoked "second reason" "rs2" "rd2").metadata
        "revocationReason" = some "second reason" ∧
      lookupStr (revokeToken sampleRevoked "second reason" "rs2" "rd2").metadata
        "revokerSignature" = some "rs2") :=
  ⟨by decide, revoke_no_status_check sampleRevoked "second reason" "rs2" "rd2" (by decide)⟩

/-- C6 (confirmed): revoking an active token yields a snapshot with
status `Revoked`, the reason and revoker signature recorded in metadata,
and every other non-status, non-metadata, non-digest field unchanged. -/
theorem revokeToken_active_frame (token : VerifiedImpactToken)
    (reason revokerSignature nowIso : String) (h : token.status = .active) :
    (revokeToken token reason revokerSignature nowIso).status = .revoked ∧
    lookupStr (revokeToken token reason revokerSignature nowIso).metadata
      "revocationReason" = some reason ∧
    lookupStr (revokeToken token reason revokerSignature nowIso).metadata
      "revokerSignature" = some revokerSignature ∧
    (revokeToken token reason revokerSignature nowIso).tokenId = token.tokenId ∧
    (revokeToken token reason revokerSignature nowIso).userId = token.userId ∧
    (revokeToken token reason revokerSignature nowIso).missionId = token.missionId ∧
    (revokeToken token reason revokerSignature nowIso).missionTitle = token.missionTitle ∧
    (revokeToken token reason revokerSignature nowIso).issuanceDate = token.issuanceDate ∧
    (revokeToken token reason revokerSignature nowIso).expirationDate = token.expirationDate ∧
    (revokeToken token reason revokerSignature nowIso).organization = token.organization ∧
    (revokeToken token reason revokerSignature nowIso).impactSignalStrength =
      token.impactSignalStrength ∧
    (revokeToken token reason revokerSignature nowIso).skillsMastered =
      token.skillsMastered ∧
    (revokeToken token reason revokerSignature nowIso).organizationSignature =
      token.organizationSignature ∧
    (revokeToken token reason revokerSignature nowIso).nonTransferable =
      token.nonTransferable :=
  ⟨rfl, revokeToken_metadata_reason token reason revokerSignature nowIso,
    revokeToken_metadata_signature token reason revokerSignature nowIso,
    rfl, rfl, rfl, rfl, rfl, rfl, rfl, rfl, rfl, rfl, rfl⟩

theorem revokeToken_active_frame_witness :
    sampleToken1.status = .active ∧
    (revokeToken sampleToken1 "fraud detected" "rs1" "rd1").status = .revoked ∧
    lookupStr (revokeToken sampleToken1 "fraud detected" "rs1" "rd1").metadata
      "revocationReason" = some "fraud detected" ∧
    (revokeToken sampleToken1 "fraud detected" "rs1" "rd1").userId = sampleToken1.userId :=
  ⟨rfl, (revokeToken_active_frame sampleToken1 "fraud detected" "rs1" "rd1" rfl).1,
    (revokeToken_active_frame sampleToken1 "fraud detected" "rs1" "rd1" rfl).2.1,
    (revokeToken_active_frame sampleToken1 "fraud detected" "rs1" "rd1" rfl).2.2.2.2.1⟩

/-- C7 (confirmed): when an `active` token for the `(user, mission)` pair
is present, `detectDuplicateClaims` returns a `duplicate_claim` alert
with severity `high` and action `block`; with no such token it returns
none. -/
theorem detectDuplicateClaims_spec (userId missionId : String)
    (existingTokens : List VerifiedImpactToken) (alertId nowIso : String) :
    ((∃ t ∈ existingTokens,
        t.userId = userId ∧ t.missionId = missionId ∧ t.status = .active) →
      ∃ a, detectDuplicateClaims userId missionId existingTokens alertId nowIso = some a ∧
        a.alertType = .duplicate_claim ∧ a.severity = .high ∧ a.action = .block) ∧
    ((∀ t ∈ existingTokens,
        ¬(t.userId = userId ∧ t.missionId = missionId ∧ t.status = .active)) →
      detectDuplicateClaims userId missionId existingTokens alertId nowIso = none) := by
  unfold detectDuplicateClaims
  cases hfind : existingTokens.find? (fun token =>
      token.userId == userId && token.missionId == missionId
        && token.status == .active) with
  | none =>
    constructor
    · rintro ⟨t, ht, h1, h2, h3⟩
      have hnone := List.find?_eq_none.mp hfind t ht
      simp [h1, h2, h3] at hnone
    · intro _
      rfl
  | some t =>
    constructor
    · intro _
      exact ⟨_, rfl, rfl, rfl, rfl⟩
    · intro hall
      have hmem := List.mem_of_find?_eq_some hfind
      have hpred := List.find?_some hfind
      simp only [Bool.and_eq_true, beq_iff_eq] at hpred
      exact absurd ⟨hpred.1.1, hpred.1.2, hpred.2⟩ (hall t hmem)

theorem detectDuplicateClaims_spec_witness :
    (∃ t ∈ [sampleToken1],
        t.userId = "u1" ∧ t.missionId = "m1" ∧ t.status = .active) ∧
    ∃ a, detectDuplicateClaims "u1" "m1" [sampleToken1] "A1" "ts" = some a ∧
      a.alertType = .duplicate_claim ∧ a.severity = .high ∧ a.action = .block :=
  ⟨⟨sampleToken1, List.mem_cons_self sampleToken1 [], rfl, rfl, rfl⟩,
    (detectDuplicateClaims_spec "u1" "m1" [sampleToken1] "A1" "ts").1
      ⟨sampleToken1, List.mem_cons_self sampleToken1 [], rfl, rfl, rfl⟩⟩

/-- C8 (confirmed): with fewer than 3 missions the z-score outlier test
never fires, so the flagged items of `detectAnomalousImpactClaims` are
exactly the inflation and unverified-high-impact items — no outlier item
is produced no matter how divergent the impact strengths are. -/
theorem small_population_no_outlier (userMissions : List UserMission)
    (h : userMissions.length < 3) :
    (detectAnomalousImpactClaims userMissions).flaggedItems =
      userMissions.flatMap inflationItems ++
        userMissions.flatMap unverifiedItems := by
  have hlen :
      (userMissions.map fun m => m.score.compositeImpactSignalStrength).length < 3 := by
    simpa using h
  have key : ∀ m ∈ userMissions,
      outlierItems (userMissions.map fun m => m.score.compositeImpactSignalStrength) m
        ++ inflationItems m = inflationItems m := by
    intro m hm
    have hz := zScoreOf_le_three_of_small _ hlen _
      (List.mem_map_of_mem (fun m => m.score.compositeImpactSignalStrength) hm)
    rw [outlierItems, if_neg (not_lt.mpr hz)]
    rfl
  show (userMissions.flatMap fun m =>
      outlierItems (userMissions.map fun m => m.score.compositeImpactSignalStrength) m
        ++ inflationItems m) ++ userMissions.flatMap unverifiedItems = _
  rw [flatMap_congr_of_mem _ inflationItems userMissions key]

theorem small_population_no_outlier_witness :
    ([divergentMissionLow, divergentMissionHigh].length < 3) ∧
    (detectAnomalousImpactClaims [divergentMissionLow, divergentMissionHigh]).flaggedItems =
      [divergentMissionLow, divergentMissionHigh].flatMap inflationItems ++
        [divergentMissionLow, divergentMissionHigh].flatMap unverifiedItems :=
  ⟨by decide, small_population_no_outlier [divergentMissionLow, divergentMissionHigh]
    (by decide)⟩

/-- C9 (counterexample): a `revoke`-action entry for the user is dropped
by `getUserTokenHistory`, which keeps only `issue`-action entries — the
history does not include revocation entries as the claim states. -/
theorem history_excludes_revocations_cex :
    sampleRevokeEntry.userId = "u1" ∧
    sampleRevokeEntry.action = .revoke ∧
    getUserTokenHistory "u1" [sampleEntry1, sampleRevokeEntry] = [sampleToken1] :=
  ⟨rfl, rfl, rfl⟩

/-- C9 (amended): `getUserTokenHistory` returns the token snapshots of
exactly the `issue`-action entries recorded for the user, in ledger
order; entries with other actions, including revocations, are excluded. -/
theorem getUserTokenHistory_issue_entries (userId : String) (ledger : List LedgerEntry) :
    List.Sublist (getUserTokenHistory userId ledger) (ledger.map fun e => e.token) ∧
    (∀ e ∈ ledger, e.userId = userId → e.action = .issue →
      e.token ∈ getUserTokenHistory userId ledger) ∧
    (∀ t ∈ getUserTokenHistory userId ledger,
      ∃ e ∈ ledger, e.userId = userId ∧ e.action = .issue ∧ e.token = t) := by
  refine ⟨?_, ?_, ?_⟩
  · exact List.Sublist.map _ (List.filter_sublist ledger)
  · intro e he hu ha
    unfold getUserTokenHistory
    exact List.mem_map_of_mem _ (List.mem_filter.mpr ⟨he, by simp [hu, ha]⟩)
  · intro t ht
    unfold getUserTokenHistory at ht
    rcases List.mem_map.mp ht with ⟨e, hef, het⟩
    rcases List.mem_filter.mp hef with ⟨he, hpred⟩
    simp only [Bool.and_eq_true, beq_iff_eq] at hpred
    exact ⟨e, he, hpred.1, hpred.2, het⟩

theorem getUserTokenHistory_issue_entries_witness :
    sampleEntry1 ∈ [sampleEntry1, sampleRevokeEntry] ∧
    sampleEntry1.userId = "u1" ∧ sampleEntry1.action = .issue ∧
    sampleEntry1.token ∈ getUserTokenHistory "u1" [sampleEntry1, sampleRevokeEntry] :=
  ⟨List.mem_cons_self sampleEntry1 [sampleRevokeEntry], rfl, rfl,
    (getUserTokenHistory_issue_entries "u1" [sampleEntry1, sampleRevokeEntry]).2.1
      sampleEntry1 (List.mem_cons_self sampleEntry1 [sampleRevokeEntry]) rfl rfl⟩

/-- C10 (confirmed): the verification loop starts at index 1, so a
one-entry ledger is reported intact with no broken links regardless of
the entry's contents — in particular regardless of whether its stored
hash matches its recomputed hash. -/
theorem singleton_ledger_always_intact (entry : LedgerEntry) :
    verifyLedgerIntegrity [entry] = { isIntact := true, brokenLinks := [] } := rfl
